import Mathlib

/-!
Verification of the command confirmation and execution gateway of PipHack
(src/tools/shell_tool.py and the approval surface in src/main.py).

The embedding is shallow: the module-level mutable globals of shell_tool.py
(shell_commands_enabled, confirmation_mode_enabled, pending_commands) become an
explicit `ShellState` threaded through the functions; `subprocess.run` — the
only effectful primitive — is passed in as a function from command and timeout
to its outcome (a completed process, a raised TimeoutExpired, or another
raised exception).  Python strings are Lean `String`s; Python `len` and
slicing act on the code-point list `String.data`.
-/

namespace PipHack

/-! ## Data model -/

/-- One entry of the pending-command queue: shell_tool.py stores the dict
`{"command": command, "timeout": timeout}` (line 50). -/
structure PendingCommand where
  command : String
  timeout : Int
deriving Repr, DecidableEq

/-- The module-level mutable state of shell_tool.py: the two global flags and
the pending queue (lines 15, 19, 22). -/
structure ShellState where
  shell_commands_enabled : Bool
  confirmation_mode_enabled : Bool
  pending_commands : List PendingCommand
deriving Repr, DecidableEq

/-- The state the module holds right after import, before any setter runs:
`shell_commands_enabled = False` (line 15), `confirmation_mode_enabled = False`
(line 19), `pending_commands = []` (line 22). -/
def initShellState : ShellState :=
  { shell_commands_enabled := false
    confirmation_mode_enabled := false
    pending_commands := [] }

/-- Streamlit session-state default for the confirmation toggle
(main.py line 47: `st.session_state.confirmation_mode = True`). -/
def sessionConfirmationModeDefault : Bool := true

/-- Streamlit session-state default for the execution toggle
(main.py line 44: `st.session_state.shell_commands_enabled = False`). -/
def sessionShellCommandsEnabledDefault : Bool := false

/-! ## Safety Gate and Confirmation Queue accessors (shell_tool.py 25-50) -/

/-- set_shell_commands_enabled (lines 25-28). -/
def set_shell_commands_enabled (st : ShellState) (enabled : Bool) : ShellState :=
  { st with shell_commands_enabled := enabled }

/-- set_confirmation_mode (lines 31-34). -/
def set_confirmation_mode (st : ShellState) (enabled : Bool) : ShellState :=
  { st with confirmation_mode_enabled := enabled }

/-- get_pending_commands (lines 37-39) returns `pending_commands.copy()`; as a
value it is the current contents.  The aliasing behaviour of `.copy()` is
modelled separately by `get_pending_commands_ref` below. -/
def get_pending_commands (st : ShellState) : List PendingCommand :=
  st.pending_commands

/-- clear_pending_commands (lines 42-45): rebinds the global to `[]`. -/
def clear_pending_commands (st : ShellState) : ShellState :=
  { st with pending_commands := [] }

/-- add_pending_command (lines 48-50): `pending_commands.append({...})`. -/
def add_pending_command (st : ShellState) (command : String) (timeout : Int) :
    ShellState :=
  { st with pending_commands :=
      st.pending_commands ++ [{ command := command, timeout := timeout }] }

/-! ## Heap model for the copy semantics of get_pending_commands

Python lists are mutable values behind references.  To state that
`pending_commands.copy()` shields the internal queue from caller mutation, a
tiny heap maps references (indices) to list values; the module global
`pending_commands` lives at reference 0 and `.copy()` allocates a fresh
reference holding the same contents. -/

/-- A heap of Python list values; reference `r` is an index into `cells`. -/
structure Heap where
  cells : List (List PendingCommand)
deriving Repr, DecidableEq

/-- Read the list value behind reference `r`. -/
def Heap.read (h : Heap) (r : Nat) : List PendingCommand :=
  h.cells.getD r []

/-- Overwrite the list value behind reference `r` (a caller mutating the list
object it was handed: append, pop, clear, item assignment, ...). -/
def Heap.write (h : Heap) (r : Nat) (v : List PendingCommand) : Heap :=
  ⟨h.cells.set r v⟩

/-- Allocate a fresh list object holding `v`; returns the new heap and the
fresh reference. -/
def Heap.alloc (h : Heap) (v : List PendingCommand) : Heap × Nat :=
  (⟨h.cells ++ [v]⟩, h.cells.length)

/-- get_pending_commands at the heap level: `return pending_commands.copy()`
(line 39) allocates a new list with the same elements as the one at
reference 0 and returns the fresh reference. -/
def get_pending_commands_ref (h : Heap) : Heap × Nat :=
  h.alloc (h.read 0)

/-! ## Execution Primitive (shell_tool.py 53-93) -/

/-- Python-level `len` counts code points. -/
def pyLen (s : String) : Nat := s.data.length

/-- Python slice `s[:n]`. -/
def pyTake (s : String) (n : Nat) : String := String.mk (s.data.take n)

/-- The characters Python's `str.strip()` removes. -/
def isPySpace (c : Char) : Bool :=
  c = ' ' || c = '\t' || c = '\n' || c = '\r' || c = '\x0b' || c = '\x0c'

/-- Python `not output.strip()`: true exactly when every character is
whitespace (stripping both ends then yields the empty string). -/
def strIsBlank (s : String) : Bool := s.data.all isPySpace

/-- MAX_OUTPUT_CHARACTERS = 30000 (line 93). -/
def MAX_OUTPUT_CHARACTERS : Nat := 30000

/-- Lines 63-69: concatenate captured stdout and stderr, inserting the
`--- STDERR ---` divider only when both are non-empty. -/
def combineOutput (stdout stderr : String) : String :=
  let output := ""
  let output := if stdout ≠ "" then output ++ stdout else output
  let output :=
    if stderr ≠ "" then
      (if output ≠ "" then output ++ "\n--- STDERR ---\n" else output) ++ stderr
    else output
  output

/-- Lines 71-76: if the combined output exceeds the cap, keep the first
MAX_OUTPUT_CHARACTERS characters and append the truncation marker carrying
the original total length. -/
def truncateOutput (output : String) : String :=
  if pyLen output > MAX_OUTPUT_CHARACTERS then
    pyTake output MAX_OUTPUT_CHARACTERS
      ++ "\n\n[Output truncated - showing first "
      ++ toString MAX_OUTPUT_CHARACTERS ++ " characters]"
      ++ "\nTotal output length: " ++ toString (pyLen output) ++ " characters"
  else output

/-- What `subprocess.run(command, shell=True, capture_output=True, text=True,
timeout=timeout)` hands back on normal completion. -/
structure CompletedProcess where
  stdout : String
  stderr : String
  returncode : Int
deriving Repr, DecidableEq

/-- The exceptions the try/except of execute_command_directly distinguishes:
subprocess.TimeoutExpired (line 86) and any other Exception `e`, carried as
its `str(e)` text (line 89). -/
inductive PyExc where
  | timeoutExpired
  | other (msg : String)
deriving Repr, DecidableEq

/-- The behaviour of the host subprocess machinery for one invocation:
either a completed process or a raised exception. -/
def Runner : Type := String → Int → Except PyExc CompletedProcess

/-- Lines 63-84: formatting of a normally completed process — concatenation,
truncation, the nonzero-exit-code banner, then the empty-output placeholder. -/
def formatCompleted (result : CompletedProcess) : String :=
  let output := combineOutput result.stdout result.stderr
  let output := truncateOutput output
  let output :=
    if result.returncode ≠ 0 then
      "Command exited with code " ++ toString result.returncode ++ "\n\n" ++ output
    else output
  if strIsBlank output then "(no output captured from the command)" else output

/-- execute_command_directly (lines 53-90): run the command, format the
outcome; the two except-clauses turn exceptions into result strings, so the
function is total into `String`. -/
def execute_command_directly (run : Runner) (command : String) (timeout : Int) :
    String :=
  match run command timeout with
  | .ok result => formatCompleted result
  | .error .timeoutExpired =>
      "Command timed out after " ++ toString timeout ++ " seconds."
  | .error (.other msg) => "Error executing command: " ++ msg

/-! ## Command Gateway (shell_tool.py 96-146) -/

/-- What one invocation of execute_shell_command produced: the returned
message, the module state afterwards, and the trace of invocations of the
Execution Primitive (each recorded as the (command, timeout) it was given). -/
structure GatewayResult where
  message : String
  state : ShellState
  calls : List (String × Int)
deriving Repr, DecidableEq

/-- The refusal message of lines 121-126. -/
def refusalMessage (command : String) : String :=
  "❌ **Shell Command Execution Disabled**\n\n"
    ++ "For safety reasons, shell command execution is currently disabled. "
    ++ "Please enable it in the sidebar configuration before PipHack can execute commands.\n\n"
    ++ "Command that would have been executed: `" ++ command ++ "`"

/-- The pending-confirmation acknowledgment of lines 131-136. -/
def pendingMessage (command : String) : String :=
  "🔒 **Command Pending Confirmation**\n\n"
    ++ "The following command has been queued for your approval:\n\n"
    ++ "```bash\n" ++ command ++ "\n```\n\n"
    ++ "Please use the confirmation buttons in the UI to approve or cancel this command."

/-- execute_shell_command (lines 96-146): refuse when disabled, queue when
confirmation mode is on, otherwise execute directly and return the formatted
result prefixed with the command. -/
def execute_shell_command (run : Runner) (st : ShellState) (command : String)
    (timeout : Int) : GatewayResult :=
  if !st.shell_commands_enabled then
    { message := refusalMessage command, state := st, calls := [] }
  else if st.confirmation_mode_enabled then
    { message := pendingMessage command
      state := add_pending_command st command timeout
      calls := [] }
  else
    { message :=
        "Shell command executed:\n`" ++ command ++ "`\n\nCommand output:\n"
          ++ execute_command_directly run command timeout
      state := st
      calls := [(command, timeout)] }

/-! ## Approval Surface (main.py, display_pending_commands, lines 128-221)

Each button handler reads the snapshot `pending = get_pending_commands()`,
possibly executes, appends a transcript entry to the chat history, and calls
`clear_pending_commands()`.  The handlers are modelled as functions from the
current state to the transcript entry, the new state, and the trace of
Execution Primitive invocations. -/

/-- Outcome of one approval-surface action. -/
structure ApprovalResult where
  transcript : String
  state : ShellState
  calls : List (String × Int)
deriving Repr, DecidableEq

/-- The Confirm button of entry `i` (main.py lines 155-175): execute that
entry directly, record the result message, then `clear_pending_commands()` —
which empties the whole queue, not just entry `i`.  `none` when no entry `i`
exists (the UI renders a button only for existing entries). -/
def confirm_pending (run : Runner) (st : ShellState) (i : Nat) :
    Option ApprovalResult :=
  match (get_pending_commands st).get? i with
  | none => none
  | some c =>
      let output := execute_command_directly run c.command c.timeout
      some { transcript :=
               "**Executed Command:**\n```bash\n" ++ c.command
                 ++ "\n```\n\n**Output:**\n```\n" ++ output ++ "\n```"
             state := clear_pending_commands st
             calls := [(c.command, c.timeout)] }

/-- The Cancel button of entry `i` (main.py lines 178-186): record a
cancellation notice and `clear_pending_commands()` — again emptying the whole
queue; nothing is executed. -/
def cancel_pending (st : ShellState) (i : Nat) : Option ApprovalResult :=
  match (get_pending_commands st).get? i with
  | none => none
  | some c =>
      some { transcript :=
               "⚠️ Command cancelled by user:\n```bash\n" ++ c.command ++ "\n```"
             state := clear_pending_commands st
             calls := [] }

/-- One transcript block of the Confirm All loop (main.py line 201). -/
def confirmAllBlock (run : Runner) (c : PendingCommand) : String :=
  "**Command:**\n```bash\n" ++ c.command ++ "\n```\n\n**Output:**\n```\n"
    ++ execute_command_directly run c.command c.timeout ++ "\n```"

/-- The Confirm All button (main.py lines 194-208): iterate over the snapshot
in order, execute each entry and collect its block, join the blocks, then
`clear_pending_commands()`. -/
def confirm_all (run : Runner) (st : ShellState) : ApprovalResult :=
  let pending := get_pending_commands st
  { transcript :=
      String.intercalate "\n\n---\n\n" (pending.map (confirmAllBlock run))
    state := clear_pending_commands st
    calls := pending.map (fun c => (c.command, c.timeout)) }

/-- The Cancel All button (main.py lines 211-218): record the cancelled
commands and `clear_pending_commands()`; nothing is executed. -/
def cancel_all (st : ShellState) : ApprovalResult :=
  let pending := get_pending_commands st
  { transcript :=
      "⚠️ All commands cancelled by user:\n"
        ++ String.intercalate "\n"
            (pending.map (fun c => "- `" ++ c.command ++ "`"))
    state := clear_pending_commands st
    calls := [] }

/-! ## Helper lemmas -/

theorem pyLen_append (s t : String) : pyLen (s ++ t) = pyLen s + pyLen t := by
  simp [pyLen]

theorem pyLen_mk_replicate (n : Nat) (c : Char) :
    pyLen (String.mk (List.replicate n c)) = n := by
  simp [pyLen]

theorem mk_replicate_ne_empty (n : Nat) (c : Char) (h : 0 < n) :
    String.mk (List.replicate n c) ≠ "" := by
  intro heq
  have hl := congrArg String.length heq
  simp at hl
  omega

theorem combineOutput_stdout_only (s : String) (h : s ≠ "") :
    combineOutput s "" = s := by
  simp [combineOutput, h]

theorem combineOutput_both (s t : String) (hs : s ≠ "") (ht : t ≠ "") :
    combineOutput s t = s ++ "\n--- STDERR ---\n" ++ t := by
  simp [combineOutput, hs, ht]

/-! ## Claim theorems -/

/-- C1: for every command string and timeout, if the execution-enabled flag is
false, execute_shell_command returns the refusal message — which echoes the
command — never invokes the Execution Primitive, and leaves the pending
queue's contents and length unchanged. -/
theorem C1_refusal_no_exec_queue_unchanged (run : Runner) (st : ShellState)
    (command : String) (timeout : Int)
    (hdis : st.shell_commands_enabled = false) :
    (execute_shell_command run st command timeout).message = refusalMessage command ∧
    (∃ pre post,
      (execute_shell_command run st command timeout).message = pre ++ command ++ post) ∧
    (execute_shell_command run st command timeout).calls = [] ∧
    (execute_shell_command run st command timeout).state.pending_commands
      = st.pending_commands ∧
    (execute_shell_command run st command timeout).state.pending_commands.length
      = st.pending_commands.length := by
  refine ⟨by simp [execute_shell_command, hdis], ?_,
    by simp [execute_shell_command, hdis], by simp [execute_shell_command, hdis],
    by simp [execute_shell_command, hdis]⟩
  refine ⟨"❌ **Shell Command Execution Disabled**\n\n"
      ++ "For safety reasons, shell command execution is currently disabled. "
      ++ "Please enable it in the sidebar configuration before PipHack can execute commands.\n\n"
      ++ "Command that would have been executed: `", "`", ?_⟩
  simp [execute_shell_command, hdis, refusalMessage, String.append_assoc]

/-- C1 witness: the refusal path at a concrete input. -/
theorem C1_witness :
    (execute_shell_command (fun _ _ => .error .timeoutExpired) initShellState
        "id" 300).calls = [] ∧
    (execute_shell_command (fun _ _ => .error .timeoutExpired) initShellState
        "id" 300).state.pending_commands = initShellState.pending_commands :=
  ⟨(C1_refusal_no_exec_queue_unchanged (fun _ _ => .error .timeoutExpired)
      initShellState "id" 300 rfl).2.2.1,
   (C1_refusal_no_exec_queue_unchanged (fun _ _ => .error .timeoutExpired)
      initShellState "id" 300 rfl).2.2.2.1⟩

/-- C2 counterexample: at process start, before any setter has been invoked,
the module-level confirmation flag is false — not true as the claim states —
so the claimed default triple does not hold of the initial state. -/
theorem C2_counterexample :
    ¬ (initShellState.shell_commands_enabled = false ∧
       initShellState.confirmation_mode_enabled = true ∧
       initShellState.pending_commands = []) := by
  decide

/-- C2 amended: at process start, before any setter has been invoked,
execution is disabled and the pending queue is empty, but the module-level
confirmation flag also starts false; the documented true default lives in the
UI session state, and applying it through set_confirmation_mode (as main()
does on startup) is what turns the flag true. -/
theorem C2_amended_initial_state :
    initShellState.shell_commands_enabled = false ∧
    initShellState.pending_commands = [] ∧
    initShellState.confirmation_mode_enabled = false ∧
    sessionConfirmationModeDefault = true ∧
    (set_confirmation_mode initShellState
        sessionConfirmationModeDefault).confirmation_mode_enabled = true := by
  decide

/-- C3: for every command string and timeout, if execution is enabled and
confirmation is required, execute_shell_command appends exactly one entry at
the tail of the pending queue carrying the submitted command and timeout,
grows the queue length by exactly 1, and never invokes the Execution
Primitive in this invocation. -/
theorem C3_confirmation_queues (run : Runner) (st : ShellState)
    (command : String) (timeout : Int)
    (hen : st.shell_commands_enabled = true)
    (hconf : st.confirmation_mode_enabled = true) :
    (execute_shell_command run st command timeout).state.pending_commands
      = st.pending_commands ++ [{ command := command, timeout := timeout }] ∧
    (execute_shell_command run st command timeout).state.pending_commands.length
      = st.pending_commands.length + 1 ∧
    (execute_shell_command run st command timeout).calls = [] := by
  refine ⟨?_, ?_, ?_⟩ <;>
    simp [execute_shell_command, hen, hconf, add_pending_command]

/-- C3 witness: queueing at a concrete input. -/
theorem C3_witness :
    (execute_shell_command (fun _ _ => .error .timeoutExpired)
        { shell_commands_enabled := true, confirmation_mode_enabled := true,
          pending_commands := [] } "echo hi" 10).state.pending_commands
      = [{ command := "echo hi", timeout := 10 }] :=
  (C3_confirmation_queues (fun _ _ => .error .timeoutExpired)
    { shell_commands_enabled := true, confirmation_mode_enabled := true,
      pending_commands := [] } "echo hi" 10 rfl rfl).1

/-- C4: for every command string and timeout, if execution is enabled and
confirmation is not required, execute_shell_command invokes the Execution
Primitive exactly once with exactly that command and timeout, leaves the
pending queue untouched, and returns the formatted result prefixed with the
literal command that was executed. -/
theorem C4_immediate_execution (run : Runner) (st : ShellState)
    (command : String) (timeout : Int)
    (hen : st.shell_commands_enabled = true)
    (hconf : st.confirmation_mode_enabled = false) :
    (execute_shell_command run st command timeout).calls = [(command, timeout)] ∧
    (execute_shell_command run st command timeout).state.pending_commands
      = st.pending_commands ∧
    (execute_shell_command run st command timeout).message
      = "Shell command executed:\n`" ++ command ++ "`\n\nCommand output:\n"
          ++ execute_command_directly run command timeout := by
  refine ⟨?_, ?_, ?_⟩ <;> simp [execute_shell_command, hen, hconf]

/-- C4 witness: immediate execution at a concrete input. -/
theorem C4_witness :
    (execute_shell_command (fun _ _ => .ok ⟨"done\n", "", 0⟩)
        { shell_commands_enabled := true, confirmation_mode_enabled := false,
          pending_commands := [] } "printf done" 10).calls
      = [("printf done", 10)] :=
  (C4_immediate_execution (fun _ _ => .ok ⟨"done\n", "", 0⟩)
    { shell_commands_enabled := true, confirmation_mode_enabled := false,
      pending_commands := [] } "printf done" 10 rfl rfl).1

/-- C5: truncation is computed on the already-concatenated stdout/stderr text
(the cap is 30,000 characters): a combined output of exactly 30,000 characters
passes through truncation unmodified, with no marker appended, while a
combined output of 30,001 or more characters is replaced by exactly its first
30,000 characters followed by the marker stating truncation and the original
total character count. -/
theorem C5_truncation_boundary (stdout stderr : String) :
    MAX_OUTPUT_CHARACTERS = 30000 ∧
    (pyLen (combineOutput stdout stderr) = 30000 →
      truncateOutput (combineOutput stdout stderr) = combineOutput stdout stderr) ∧
    (30001 ≤ pyLen (combineOutput stdout stderr) →
      truncateOutput (combineOutput stdout stderr)
        = pyTake (combineOutput stdout stderr) MAX_OUTPUT_CHARACTERS
            ++ "\n\n[Output truncated - showing first "
            ++ toString MAX_OUTPUT_CHARACTERS ++ " characters]"
            ++ "\nTotal output length: "
            ++ toString (pyLen (combineOutput stdout stderr)) ++ " characters") := by
  refine ⟨rfl, ?_, ?_⟩
  · intro h
    have hn : ¬ (pyLen (combineOutput stdout stderr) > MAX_OUTPUT_CHARACTERS) := by
      simp only [MAX_OUTPUT_CHARACTERS]
      omega
    rw [truncateOutput, if_neg hn]
  · intro h
    have hp : pyLen (combineOutput stdout stderr) > MAX_OUTPUT_CHARACTERS := by
      simp only [MAX_OUTPUT_CHARACTERS]
      omega
    rw [truncateOutput, if_pos hp]

/-- C5 witness: a 30,000-character combined output is left alone; a combined
output built from a 20,000-character stdout and a 15,000-character stderr —
each stream below the cap on its own — exceeds the cap once concatenated and
is truncated. -/
theorem C5_witness :
    truncateOutput (combineOutput (String.mk (List.replicate 30000 'a')) "")
      = combineOutput (String.mk (List.replicate 30000 'a')) "" ∧
    truncateOutput (combineOutput (String.mk (List.replicate 20000 'a'))
        (String.mk (List.replicate 15000 'b')))
      = pyTake (combineOutput (String.mk (List.replicate 20000 'a'))
            (String.mk (List.replicate 15000 'b'))) MAX_OUTPUT_CHARACTERS
          ++ "\n\n[Output truncated - showing first "
          ++ toString MAX_OUTPUT_CHARACTERS ++ " characters]"
          ++ "\nTotal output length: "
          ++ toString (pyLen (combineOutput (String.mk (List.replicate 20000 'a'))
              (String.mk (List.replicate 15000 'b')))) ++ " characters" :=
  ⟨(C5_truncation_boundary (String.mk (List.replicate 30000 'a')) "").2.1
    (by rw [combineOutput_stdout_only _ (mk_replicate_ne_empty _ _ (by norm_num))]
        exact pyLen_mk_replicate 30000 'a'),
   (C5_truncation_boundary (String.mk (List.replicate 20000 'a'))
      (String.mk (List.replicate 15000 'b'))).2.2
    (by rw [combineOutput_both _ _ (mk_replicate_ne_empty _ _ (by norm_num))
          (mk_replicate_ne_empty _ _ (by norm_num))]
        rw [pyLen_append, pyLen_append, pyLen_mk_replicate, pyLen_mk_replicate]
        norm_num [pyLen])⟩

/-- C6: the Execution Primitive is total into result strings — every runner
outcome (normal completion, TimeoutExpired, any other exception) is mapped to
a returned string, never re-raised: a timeout yields the message carrying the
configured timeout value, and any other fault yields the descriptive error
string built from the exception text. -/
theorem C6_total_fault_reporting (run : Runner) (command : String) (timeout : Int) :
    (∀ r, run command timeout = .ok r →
      execute_command_directly run command timeout = formatCompleted r) ∧
    (run command timeout = .error .timeoutExpired →
      execute_command_directly run command timeout
        = "Command timed out after " ++ toString timeout ++ " seconds." ∧
      ∃ pre post, execute_command_directly run command timeout
        = pre ++ toString timeout ++ post) ∧
    (∀ msg, run command timeout = .error (.other msg) →
      execute_command_directly run command timeout
        = "Error executing command: " ++ msg) := by
  refine ⟨?_, ?_, ?_⟩
  · intro r hr
    simp [execute_command_directly, hr]
  · intro hr
    refine ⟨by simp [execute_command_directly, hr], ?_⟩
    exact ⟨"Command timed out after ", " seconds.",
      by simp [execute_command_directly, hr]⟩
  · intro msg hr
    simp [execute_command_directly, hr]

/-- C6 witness: the timeout and fault paths at concrete inputs. -/
theorem C6_witness :
    execute_command_directly (fun _ _ => .error .timeoutExpired) "sleep 10" 5
      = "Command timed out after " ++ toString (5 : Int) ++ " seconds." ∧
    execute_command_directly (fun _ _ => .error (.other "No such file")) "x" 300
      = "Error executing command: " ++ "No such file" :=
  ⟨((C6_total_fault_reporting (fun _ _ => .error .timeoutExpired)
      "sleep 10" 5).2.1 rfl).1,
   (C6_total_fault_reporting (fun _ _ => .error (.other "No such file"))
      "x" 300).2.2 "No such file" rfl⟩

/-- The nonzero-exit banner is never whitespace-only, whatever follows it. -/
theorem strIsBlank_banner_false (rc : Int) (s : String) :
    strIsBlank ("Command exited with code " ++ toString rc ++ "\n\n" ++ s)
      = false := by
  simp [strIsBlank, List.all_append]
  intro h
  exact absurd h (by decide)

/-- A string starting with the nonzero-exit banner is never the placeholder. -/
theorem banner_ne_placeholder (rc : Int) (s : String) :
    "Command exited with code " ++ toString rc ++ "\n\n" ++ s
      ≠ "(no output captured from the command)" := by
  intro heq
  have hd := congrArg String.data heq
  simp only [String.data_append, List.cons_append, List.cons.injEq] at hd
  exact absurd hd.1 (by decide)

/-- C7 counterexample: a command with empty output and exit code 2 does not
yield the placeholder — the exit-code banner is prepended before the blank
check, so the check sees a non-blank string. -/
theorem C7_counterexample :
    execute_command_directly (fun _ _ => .ok ⟨"", "", 2⟩) "false" 300
      ≠ "(no output captured from the command)" := by
  decide

/-- C7 amended: the placeholder is substituted when the exit code is 0 and
the concatenated output is whitespace-only and within the 30,000-character
cap; for a nonzero exit code, the exit-code banner is prepended before the
blank check, so the result is the banner followed by the (possibly blank)
output and is never the placeholder. -/
theorem C7_placeholder_only_on_zero_exit (stdout stderr : String) (rc : Int) :
    (rc = 0 → strIsBlank (combineOutput stdout stderr) = true →
      pyLen (combineOutput stdout stderr) ≤ MAX_OUTPUT_CHARACTERS →
      formatCompleted ⟨stdout, stderr, rc⟩
        = "(no output captured from the command)") ∧
    (rc ≠ 0 →
      formatCompleted ⟨stdout, stderr, rc⟩
        = "Command exited with code " ++ toString rc ++ "\n\n"
            ++ truncateOutput (combineOutput stdout stderr) ∧
      formatCompleted ⟨stdout, stderr, rc⟩
        ≠ "(no output captured from the command)") := by
  constructor
  · intro h0 hblank hlen
    have hne : ¬ (pyLen (combineOutput stdout stderr) > MAX_OUTPUT_CHARACTERS) := by
      omega
    simp [formatCompleted, truncateOutput, h0, hne, hblank]
  · intro hnz
    have hb := strIsBlank_banner_false rc (truncateOutput (combineOutput stdout stderr))
    have hmain : formatCompleted ⟨stdout, stderr, rc⟩
        = "Command exited with code " ++ toString rc ++ "\n\n"
            ++ truncateOutput (combineOutput stdout stderr) := by
      simp [formatCompleted, hnz, hb]
    refine ⟨hmain, ?_⟩
    rw [hmain]
    exact banner_ne_placeholder rc (truncateOutput (combineOutput stdout stderr))

/-- C7 witness: blank output with exit code 0 gives the placeholder; blank
output with exit code 2 gives the banner instead. -/
theorem C7_witness :
    formatCompleted ⟨"", "", 0⟩ = "(no output captured from the command)" ∧
    formatCompleted ⟨"", "", 2⟩ ≠ "(no output captured from the command)" :=
  ⟨(C7_placeholder_only_on_zero_exit "" "" 0).1 rfl (by decide) (by decide),
   ((C7_placeholder_only_on_zero_exit "" "" 2).2 (by decide)).2⟩

theorem intercalate_three (sep x y z : String) :
    String.intercalate sep [x, y, z] = x ++ sep ++ y ++ sep ++ z := rfl

/-- C8: get_pending_commands returns the pending entries in FIFO insertion
order as a snapshot copy: `.copy()` allocates a fresh list object whose
contents equal the internal queue's (same entries, same order), the returned
reference is never the internal one, and overwriting the returned list leaves
the queue behind reference 0 untouched. -/
theorem C8_snapshot_copy (h : Heap) (hwf : 0 < h.cells.length) :
    (get_pending_commands_ref h).1.read (get_pending_commands_ref h).2
      = h.read 0 ∧
    (get_pending_commands_ref h).2 ≠ 0 ∧
    ∀ v, ((get_pending_commands_ref h).1.write
        (get_pending_commands_ref h).2 v).read 0 = h.read 0 := by
  refine ⟨?_, ?_, ?_⟩
  · simp [get_pending_commands_ref, Heap.alloc, Heap.read,
      List.getElem?_concat_length]
  · show h.cells.length ≠ 0
    omega
  · intro v
    simp only [get_pending_commands_ref, Heap.alloc, Heap.write, Heap.read,
      List.getD_eq_getElem?_getD]
    rw [List.getElem?_set_ne (by omega), List.getElem?_append_left hwf]

/-- C8 witness: copy-isolation at a concrete one-entry heap. -/
theorem C8_witness :
    ((get_pending_commands_ref ⟨[[{ command := "ls", timeout := 300 }]]⟩).1.write
        (get_pending_commands_ref ⟨[[{ command := "ls", timeout := 300 }]]⟩).2
        [{ command := "id", timeout := 5 }]).read 0
      = Heap.read ⟨[[{ command := "ls", timeout := 300 }]]⟩ 0 :=
  (C8_snapshot_copy ⟨[[{ command := "ls", timeout := 300 }]]⟩ (by decide)).2.2
    [{ command := "id", timeout := 5 }]

/-- C9: enqueueing commands c1, c2, c3 in that order and then pressing
Confirm All executes them through the Execution Primitive exactly in the
order c1, c2, c3, aggregates the transcript blocks in that same order, and
leaves the pending queue empty. -/
theorem C9_confirm_all_fifo (run : Runner) (st st3 : ShellState)
    (c1 c2 c3 : String) (t1 t2 t3 : Int)
    (hen : st.shell_commands_enabled = true)
    (hconf : st.confirmation_mode_enabled = true)
    (hempty : st.pending_commands = [])
    (hst3 : st3 = (execute_shell_command run
      (execute_shell_command run
        (execute_shell_command run st c1 t1).state c2 t2).state c3 t3).state) :
    st3.pending_commands
      = [{ command := c1, timeout := t1 }, { command := c2, timeout := t2 },
         { command := c3, timeout := t3 }] ∧
    (confirm_all run st3).calls = [(c1, t1), (c2, t2), (c3, t3)] ∧
    (confirm_all run st3).transcript
      = confirmAllBlock run { command := c1, timeout := t1 }
          ++ "\n\n---\n\n" ++ confirmAllBlock run { command := c2, timeout := t2 }
          ++ "\n\n---\n\n" ++ confirmAllBlock run { command := c3, timeout := t3 } ∧
    (confirm_all run st3).state.pending_commands = [] := by
  subst hst3
  refine ⟨?_, ?_, ?_, ?_⟩ <;>
    simp [execute_shell_command, hen, hconf, hempty, add_pending_command,
      confirm_all, get_pending_commands, clear_pending_commands,
      intercalate_three]

/-- C9 witness: three concrete commands flow through queueing and Confirm All
in FIFO order. -/
theorem C9_witness :
    (confirm_all (fun _ _ => .error .timeoutExpired)
        { shell_commands_enabled := true, confirmation_mode_enabled := true,
          pending_commands := [{ command := "ls", timeout := 300 },
            { command := "pwd", timeout := 60 },
            { command := "id", timeout := 10 }] }).calls
      = [("ls", 300), ("pwd", 60), ("id", 10)] :=
  (C9_confirm_all_fifo (fun _ _ => .error .timeoutExpired)
    { shell_commands_enabled := true, confirmation_mode_enabled := true,
      pending_commands := [] }
    { shell_commands_enabled := true, confirmation_mode_enabled := true,
      pending_commands := [{ command := "ls", timeout := 300 },
        { command := "pwd", timeout := 60 },
        { command := "id", timeout := 10 }] }
    "ls" "pwd" "id" 300 60 10 rfl rfl rfl rfl).2.1

/-- C10: resolving any single pending entry empties the entire queue, not
just that entry: the Confirm button of entry i executes exactly command i and
then clears every entry (the others are discarded unexecuted), and the Cancel
button of entry i clears every entry without executing any command. -/
theorem C10_single_resolution_clears_queue (run : Runner) (st : ShellState)
    (i : Nat) (hi : i < st.pending_commands.length) :
    confirm_pending run st i = some
      { transcript := "**Executed Command:**\n```bash\n"
          ++ (st.pending_commands.get ⟨i, hi⟩).command
          ++ "\n```\n\n**Output:**\n```\n"
          ++ execute_command_directly run (st.pending_commands.get ⟨i, hi⟩).command
              (st.pending_commands.get ⟨i, hi⟩).timeout ++ "\n```"
        state := clear_pending_commands st
        calls := [((st.pending_commands.get ⟨i, hi⟩).command,
                   (st.pending_commands.get ⟨i, hi⟩).timeout)] } ∧
    cancel_pending st i = some
      { transcript := "⚠️ Command cancelled by user:\n```bash\n"
          ++ (st.pending_commands.get ⟨i, hi⟩).command ++ "\n```"
        state := clear_pending_commands st
        calls := [] } ∧
    (clear_pending_commands st).pending_commands = [] := by
  have hg : st.pending_commands.get? i
      = some (st.pending_commands.get ⟨i, hi⟩) :=
    List.get?_eq_get hi
  refine ⟨?_, ?_, rfl⟩
  · simp only [confirm_pending, get_pending_commands]
    rw [hg]
  · simp only [cancel_pending, get_pending_commands]
    rw [hg]

/-- C10 witness: confirming the second of two pending entries executes only
that entry and both entries are gone afterwards. -/
theorem C10_witness :
    confirm_pending (fun _ _ => .ok ⟨"uid=0\n", "", 0⟩)
        { shell_commands_enabled := true, confirmation_mode_enabled := true,
          pending_commands := [{ command := "ls", timeout := 300 },
            { command := "id", timeout := 60 }] } 1
      = some
        { transcript := "**Executed Command:**\n```bash\n" ++ "id"
            ++ "\n```\n\n**Output:**\n```\n"
            ++ execute_command_directly (fun _ _ => .ok ⟨"uid=0\n", "", 0⟩)
                "id" 60 ++ "\n```"
          state := { shell_commands_enabled := true,
                     confirmation_mode_enabled := true, pending_commands := [] }
          calls := [("id", 60)] } :=
  (C10_single_resolution_clears_queue (fun _ _ => .ok ⟨"uid=0\n", "", 0⟩)
    { shell_commands_enabled := true, confirmation_mode_enabled := true,
      pending_commands := [{ command := "ls", timeout := 300 },
        { command := "id", timeout := 60 }] } 1 (by decide)).1

end PipHack
